import Mathlib

/-!
Verification development for the InterVis GUI application
(`src/ui/timeseries_dialog.py` and `src/main_window.py`).

The Python code is shallowly embedded: float arithmetic is idealised as
exact rational arithmetic (`ℚ`), the complex FFT values live in `ℂ`, and
each Qt handler becomes an explicit state-passing function.  Qt widgets
are represented by the data they display (label contents, button enabled
flags, plotted point lists).
-/

/-! ### Timeseries dialog (`src/ui/timeseries_dialog.py`) -/

/-- Python `np.diff`: successive differences `t[i+1] - t[i]`. -/
def diffsQ (l : List ℚ) : List ℚ :=
  List.zipWith (fun a b => a - b) l.tail l

/-- Python `np.mean`: sum divided by length (only used behind non-emptiness guards). -/
def meanQ (l : List ℚ) : ℚ :=
  l.sum / (l.length : ℚ)

/-- Python `np.fft.fft`: the discrete Fourier transform
`yf[k] = sum_n x[n] * exp(-2*pi*i*k*n/N)` of a real-valued signal. -/
noncomputable def np_fft (x : List ℝ) : List ℂ :=
  let N := x.length
  (List.range N).map fun (k : ℕ) =>
    (((List.range N).map fun (n : ℕ) =>
      ((x.getD n 0 : ℝ) : ℂ) *
        Complex.exp (-(2 * Real.pi * Complex.I * (k : ℂ) * (n : ℂ)) / (N : ℂ))).sum)

/-- Python `np.fft.fftfreq N T`: `[0, 1, ..., (N-1)//2, -(N//2), ..., -1] / (N*T)`. -/
def fftfreq (N : ℕ) (T : ℚ) : List ℚ :=
  (List.range N).map fun k =>
    if k ≤ (N - 1) / 2 then (k : ℚ) / ((N : ℚ) * T) else ((k : ℚ) - (N : ℚ)) / ((N : ℚ) * T)

/-- Python `signal - np.mean(signal)`, coerced to the reals for the FFT. -/
def centered (sig : List ℚ) : List ℝ :=
  sig.map fun s => ((s - meanQ sig : ℚ) : ℝ)

/-- State of a `TimeSeriesDialog`: the cached dataframe (rows are
`(time, value)` pairs), the selected variable, the two button enabled
flags, the stored `self.xf` / `self.yf` FFT results, and the contents of
the two matplotlib axes (the time plot and the FFT plot / error text). -/
structure TSState where
  current_df : Option (List (ℚ × ℚ))
  selected_variable : String
  fft_button_enabled : Bool
  export_fft_button_enabled : Bool
  xf : Option (List ℚ)
  yf : Option (List ℂ)
  time_plot : Option (List (ℚ × ℚ))
  fft_plot : Option (List (ℚ × ℝ))
  fft_message : Option String

/-- Python `TimeSeriesDialog.plot_data`, with the result of
`dm.get_timeseries_at_point` passed in as `retrieved`.  Both axes are
cleared, the dataframe is stored, and the FFT button is enabled exactly
when the data has more than one row and strictly increasing timestamps
(`len(df) > 1 and np.all(np.diff(times) > 0)`). -/
def plot_data (retrieved : Option (List (ℚ × ℚ))) (st : TSState) : TSState :=
  if st.selected_variable = "" then st
  else
    let st1 := { st with time_plot := none, fft_plot := none, fft_message := none }
    match retrieved with
    | none =>
      { st1 with current_df := none,
                 fft_button_enabled := false, export_fft_button_enabled := false }
    | some df =>
      if df.isEmpty then
        { st1 with current_df := some df,
                   fft_button_enabled := false, export_fft_button_enabled := false }
      else
        { st1 with current_df := some df,
                   time_plot := some df,
                   fft_button_enabled :=
                     decide (1 < df.length) &&
                       (diffsQ (df.map Prod.fst)).all (fun d => decide (0 < d)),
                   export_fft_button_enabled := false }

/-- Python `TimeSeriesDialog.plot_fft`: early returns for a missing/empty
dataframe, `N < 2`, a non-positive time difference, or a zero mean time
step; otherwise stores `yf = np.fft.fft(signal - mean(signal))`,
`xf = fftfreq(N, T)[:N//2]` and plots `2/N * |yf[0:N//2]|` against `xf`. -/
noncomputable def plot_fft (st : TSState) : TSState :=
  match st.current_df with
  | none => st
  | some df =>
    if df.isEmpty then st
    else
      let signal := df.map Prod.snd
      let timestamps := df.map Prod.fst
      let N := signal.length
      if N < 2 then st
      else
        let time_diffs := diffsQ timestamps
        if time_diffs.any (fun d => decide (d ≤ 0)) then
          { st with fft_plot := none,
                    fft_message := some "时间戳不均匀或无效，无法计算FFT",
                    export_fft_button_enabled := false }
        else
          let T := meanQ time_diffs
          if T = 0 then
            { st with fft_plot := none,
                      fft_message := some "时间步长为零，无法计算FFT" }
          else
            let yf := np_fft (centered signal)
            let xf := (fftfreq N T).take (N / 2)
            { st with
              yf := some yf,
              xf := some xf,
              fft_plot := some (xf.zip ((yf.take (N / 2)).map
                (fun c => 2 / (N : ℝ) * Complex.abs c))),
              fft_message := none,
              export_fft_button_enabled := true }

/-- Python `TimeSeriesDialog.export_fft_results_csv`: the rows written to the
CSV, as `(Frequency (Hz), Amplitude)` pairs computed from the stored
`self.xf` and `self.yf`; `none` when no FFT results are stored. -/
noncomputable def export_fft_results_csv (st : TSState) : Option (List (ℚ × ℝ)) :=
  match st.xf, st.yf with
  | some xf, some yf =>
    let N := yf.length
    some (xf.zip ((yf.take (N / 2)).map (fun c => 2 / (N : ℝ) * Complex.abs c)))
  | _, _ => none

/-! ### Helper lemmas about the embedded numpy operations -/

lemma diffsQ_length (l : List ℚ) : (diffsQ l).length = l.length - 1 := by
  simp [diffsQ, List.length_zipWith, List.length_tail]

lemma np_fft_length (x : List ℝ) : (np_fft x).length = x.length := by
  simp only [np_fft, List.length_map, List.length_range]

lemma fftfreq_length (N : ℕ) (T : ℚ) : (fftfreq N T).length = N := by
  simp [fftfreq]

lemma centered_length (sig : List ℚ) : (centered sig).length = sig.length := by
  simp [centered]

lemma meanQ_pos (l : List ℚ) (h : ∀ d ∈ l, 0 < d) (hne : l ≠ []) : 0 < meanQ l := by
  have hs : 0 < l.sum := List.sum_pos l h hne
  have hl : (0 : ℚ) < (l.length : ℚ) := by
    have : 0 < l.length := List.length_pos.mpr hne
    exact_mod_cast this
  exact div_pos hs hl

lemma take_zip_take_map_eq {α β γ : Type _} (a : List α) (b : List β) (f : β → γ)
    (m : ℕ) (da : α) (db : β) (ha : m ≤ a.length) (hb : m ≤ b.length) :
    (a.take m).zip ((b.take m).map f) =
      (List.range m).map (fun k => (a.getD k da, f (b.getD k db))) := by
  apply List.ext_getElem
  · simp only [List.length_zip, List.length_take, List.length_map, List.length_range]
    omega
  · intro n h1 h2
    have hn : n < m := by
      simpa only [List.length_map, List.length_range] using h2
    have hna : n < a.length := lt_of_lt_of_le hn ha
    have hnb : n < b.length := lt_of_lt_of_le hn hb
    rw [List.getElem_zip, List.getElem_map, List.getElem_map, List.getElem_range,
      List.getElem_take, List.getElem_take,
      List.getD_eq_getElem a da hna, List.getD_eq_getElem b db hnb]

/-- Characterisation of a successful `plot_fft` run: with a dataframe of
at least two rows and strictly increasing timestamps, the guards fall
through and the FFT results are stored and plotted. -/
lemma plot_fft_success (st : TSState) (df : List (ℚ × ℚ))
    (hdf : st.current_df = some df) (hlen : 2 ≤ df.length)
    (hinc : ∀ d ∈ diffsQ (df.map Prod.fst), 0 < d) :
    plot_fft st =
      { st with
        yf := some (np_fft (centered (df.map Prod.snd))),
        xf := some ((fftfreq df.length (meanQ (diffsQ (df.map Prod.fst)))).take (df.length / 2)),
        fft_plot := some
          (((fftfreq df.length (meanQ (diffsQ (df.map Prod.fst)))).take (df.length / 2)).zip
            (((np_fft (centered (df.map Prod.snd))).take (df.length / 2)).map
              (fun c => 2 / (df.length : ℝ) * Complex.abs c))),
        fft_message := none,
        export_fft_button_enabled := true } := by
  have h0 : df ≠ [] := by
    intro h; subst h; simp at hlen
  have hE : df.isEmpty = false := by
    cases df with
    | nil => exact absurd rfl h0
    | cons a l => rfl
  have hlt : ¬ (df.length < 2) := not_lt.mpr hlen
  have hanyf : (diffsQ (df.map Prod.fst)).any (fun d => decide (d ≤ 0)) = false := by
    rw [List.any_eq_false]
    intro d hd
    simp only [decide_eq_true_eq, not_le]
    exact hinc d hd
  have hdne : diffsQ (df.map Prod.fst) ≠ [] := by
    intro h
    have := diffsQ_length (df.map Prod.fst)
    rw [h] at this
    simp [List.length_map] at this
    omega
  have hT : 0 < meanQ (diffsQ (df.map Prod.fst)) := meanQ_pos _ hinc hdne
  simp only [plot_fft, hdf, hE, List.length_map, Bool.false_eq_true, if_false,
    if_neg hlt, hanyf, if_neg hT.ne']

/-- Length of the DFT output of the centered signal. -/
lemma np_fft_centered_length (df : List (ℚ × ℚ)) :
    (np_fft (centered (df.map Prod.snd))).length = df.length := by
  rw [np_fft_length, centered_length, List.length_map]

/-! ### Concrete example state used by the witnesses -/

def ts_example_df : List (ℚ × ℚ) := [(0, 1), (1, 3), (2, 2)]

def ts_example_state : TSState :=
  { current_df := some ts_example_df, selected_variable := "v",
    fft_button_enabled := true, export_fft_button_enabled := false,
    xf := none, yf := none, time_plot := none, fft_plot := none, fft_message := none }

/-- C1: for every loaded timeseries of `N ≥ 2` samples with strictly
increasing timestamps, `plot_fft` computes the DFT of the
mean-subtracted signal, uses the mean of the successive time differences
as the sample spacing `T`, and plots amplitude `2/N * |yf[k]|` against
frequency `fftfreq(N, T)[k]` for exactly the first `N//2` bins. -/
theorem plot_fft_computes_dft (st : TSState) (df : List (ℚ × ℚ))
    (hdf : st.current_df = some df) (hlen : 2 ≤ df.length)
    (hinc : ∀ d ∈ diffsQ (df.map Prod.fst), 0 < d) :
    plot_fft st =
      { st with
        yf := some (np_fft (centered (df.map Prod.snd))),
        xf := some ((fftfreq df.length (meanQ (diffsQ (df.map Prod.fst)))).take (df.length / 2)),
        fft_plot := some ((List.range (df.length / 2)).map (fun k =>
          ((fftfreq df.length (meanQ (diffsQ (df.map Prod.fst)))).getD k 0,
            2 / (df.length : ℝ) * Complex.abs ((np_fft (centered (df.map Prod.snd))).getD k 0)))),
        fft_message := none,
        export_fft_button_enabled := true } := by
  have h1 : df.length / 2 ≤ (fftfreq df.length (meanQ (diffsQ (df.map Prod.fst)))).length := by
    rw [fftfreq_length]; exact Nat.div_le_self _ _
  have h2 : df.length / 2 ≤ (np_fft (centered (df.map Prod.snd))).length := by
    rw [np_fft_centered_length]; exact Nat.div_le_self _ _
  rw [plot_fft_success st df hdf hlen hinc,
    take_zip_take_map_eq _ _ _ _ 0 0 h1 h2]

/-- Witness for C1 at a concrete three-sample timeseries. -/
theorem plot_fft_computes_dft_witness :
    (plot_fft ts_example_state).export_fft_button_enabled = true := by
  rw [plot_fft_computes_dft ts_example_state ts_example_df rfl (by decide)
    (by norm_num [ts_example_df, diffsQ])]

/-- C6: the frequency/amplitude rows written by `export_fft_results_csv`
are exactly the pairs plotted by the most recent successful `plot_fft`
call, both being derived from the stored `self.xf` and `self.yf` by the
same `2/N * |yf[0:N//2]|` formula. -/
theorem export_rows_match_fft_plot (st : TSState) (df : List (ℚ × ℚ))
    (hdf : st.current_df = some df) (hlen : 2 ≤ df.length)
    (hinc : ∀ d ∈ diffsQ (df.map Prod.fst), 0 < d) :
    export_fft_results_csv (plot_fft st) = (plot_fft st).fft_plot := by
  rw [plot_fft_success st df hdf hlen hinc]
  simp only [export_fft_results_csv, np_fft_centered_length]

/-- Witness for C6 at a concrete three-sample timeseries. -/
theorem export_rows_match_fft_plot_witness :
    export_fft_results_csv (plot_fft ts_example_state) = (plot_fft ts_example_state).fft_plot :=
  export_rows_match_fft_plot ts_example_state ts_example_df rfl (by decide)
    (by norm_num [ts_example_df, diffsQ])

/-! ### Early-return characterisations of `plot_fft` -/

lemma plot_fft_of_none (st : TSState) (h : st.current_df = none) : plot_fft st = st := by
  simp only [plot_fft, h]

lemma plot_fft_of_short (st : TSState) (df : List (ℚ × ℚ))
    (h : st.current_df = some df) (hlt : df.length < 2) : plot_fft st = st := by
  simp only [plot_fft, h]
  cases df with
  | nil => simp
  | cons p t =>
    simp only [List.isEmpty_cons, Bool.false_eq_true, if_false, List.length_map]
    rw [if_pos hlt]

lemma plot_fft_of_bad_diff (st : TSState) (df : List (ℚ × ℚ))
    (h : st.current_df = some df) (hlen : 2 ≤ df.length)
    (hany : (diffsQ (df.map Prod.fst)).any (fun d => decide (d ≤ 0)) = true) :
    plot_fft st = { st with fft_plot := none,
                            fft_message := some "时间戳不均匀或无效，无法计算FFT",
                            export_fft_button_enabled := false } := by
  have h0 : df ≠ [] := by intro hh; subst hh; simp at hlen
  have hE : df.isEmpty = false := by
    cases df with | nil => exact absurd rfl h0 | cons a t => rfl
  simp only [plot_fft, h, hE, Bool.false_eq_true, if_false, List.length_map,
    if_neg (not_lt.mpr hlen), hany, if_true]

lemma plot_fft_of_zero_mean (st : TSState) (df : List (ℚ × ℚ))
    (h : st.current_df = some df) (hlen : 2 ≤ df.length)
    (hany : (diffsQ (df.map Prod.fst)).any (fun d => decide (d ≤ 0)) = false)
    (hT : meanQ (diffsQ (df.map Prod.fst)) = 0) :
    plot_fft st = { st with fft_plot := none,
                            fft_message := some "时间步长为零，无法计算FFT" } := by
  have h0 : df ≠ [] := by intro hh; subst hh; simp at hlen
  have hE : df.isEmpty = false := by
    cases df with | nil => exact absurd rfl h0 | cons a t => rfl
  simp only [plot_fft, h, hE, Bool.false_eq_true, if_false, List.length_map,
    if_neg (not_lt.mpr hlen), hany, if_pos hT]

/-- C2: after `plot_data` the FFT button is enabled iff the retrieved
dataframe is non-None, non-empty, has more than one row and strictly
increasing times; and `plot_fft` returns without computing an FFT when
the signal has fewer than 2 samples, some time difference is `≤ 0`, or
the mean time step is `0`, so it only divides by `N` and `T` (storing
new `xf`/`yf`) when `2 ≤ N` and `T ≠ 0`. -/
theorem plot_fft_guards_safe :
    (∀ (retrieved : Option (List (ℚ × ℚ))) (st : TSState),
      st.selected_variable ≠ "" →
      ((plot_data retrieved st).fft_button_enabled = true ↔
        ∃ df, retrieved = some df ∧ df ≠ [] ∧ 1 < df.length ∧
          ∀ d ∈ diffsQ (df.map Prod.fst), 0 < d))
    ∧ (∀ st : TSState, st.current_df = none → plot_fft st = st)
    ∧ (∀ (st : TSState) (df : List (ℚ × ℚ)),
        st.current_df = some df → df.length < 2 → plot_fft st = st)
    ∧ (∀ (st : TSState) (df : List (ℚ × ℚ)),
        st.current_df = some df → (∃ d ∈ diffsQ (df.map Prod.fst), d ≤ 0) →
        (plot_fft st).xf = st.xf ∧ (plot_fft st).yf = st.yf)
    ∧ (∀ (st : TSState) (df : List (ℚ × ℚ)),
        st.current_df = some df → meanQ (diffsQ (df.map Prod.fst)) = 0 →
        (plot_fft st).xf = st.xf ∧ (plot_fft st).yf = st.yf)
    ∧ (∀ st : TSState,
        (plot_fft st).xf ≠ st.xf ∨ (plot_fft st).yf ≠ st.yf →
        ∃ df, st.current_df = some df ∧ 2 ≤ df.length ∧
          meanQ (diffsQ (df.map Prod.fst)) ≠ 0) := by
  refine ⟨?_, ?_, ?_, ?_, ?_, ?_⟩
  · intro retrieved st hsel
    simp only [plot_data, if_neg hsel]
    cases retrieved with
    | none => simp
    | some df =>
      cases df with
      | nil => simp [List.isEmpty]
      | cons p l =>
        simp only [List.isEmpty_cons, Bool.false_eq_true, if_false, Bool.and_eq_true,
          decide_eq_true_eq, List.all_eq_true, Option.some.injEq]
        constructor
        · rintro ⟨h1, h2⟩
          exact ⟨p :: l, rfl, List.cons_ne_nil p l, h1, fun d hd => h2 d hd⟩
        · rintro ⟨df', hdf', _, h1, h2⟩
          subst hdf'
          exact ⟨h1, fun d hd => h2 d hd⟩
  · exact plot_fft_of_none
  · exact plot_fft_of_short
  · intro st df h hex
    by_cases hlen : 2 ≤ df.length
    · have hany : (diffsQ (df.map Prod.fst)).any (fun d => decide (d ≤ 0)) = true := by
        rw [List.any_eq_true]
        obtain ⟨d, hd, hle⟩ := hex
        exact ⟨d, hd, by simpa using hle⟩
      rw [plot_fft_of_bad_diff st df h hlen hany]
      exact ⟨rfl, rfl⟩
    · rw [plot_fft_of_short st df h (not_le.mp hlen)]
      exact ⟨rfl, rfl⟩
  · intro st df h hmean
    by_cases hlen : 2 ≤ df.length
    · by_cases hany : (diffsQ (df.map Prod.fst)).any (fun d => decide (d ≤ 0)) = true
      · rw [plot_fft_of_bad_diff st df h hlen hany]
        exact ⟨rfl, rfl⟩
      · rw [plot_fft_of_zero_mean st df h hlen (Bool.eq_false_iff.mpr hany) hmean]
        exact ⟨rfl, rfl⟩
    · rw [plot_fft_of_short st df h (not_le.mp hlen)]
      exact ⟨rfl, rfl⟩
  · intro st hchanged
    cases hdf : st.current_df with
    | none =>
      rw [plot_fft_of_none st hdf] at hchanged
      simp at hchanged
    | some df =>
      by_cases hlen : 2 ≤ df.length
      · by_cases hany : (diffsQ (df.map Prod.fst)).any (fun d => decide (d ≤ 0)) = true
        · rw [plot_fft_of_bad_diff st df hdf hlen hany] at hchanged
          simp at hchanged
        · by_cases hT : meanQ (diffsQ (df.map Prod.fst)) = 0
          · rw [plot_fft_of_zero_mean st df hdf hlen (Bool.eq_false_iff.mpr hany) hT] at hchanged
            simp at hchanged
          · exact ⟨df, rfl, hlen, hT⟩
      · rw [plot_fft_of_short st df hdf (not_le.mp hlen)] at hchanged
        simp at hchanged

/-- Witness for C2: the FFT button is enabled after `plot_data` on a
concrete strictly increasing three-sample dataframe. -/
theorem plot_fft_guards_safe_witness :
    (plot_data (some ts_example_df) ts_example_state).fft_button_enabled = true :=
  (plot_fft_guards_safe.1 (some ts_example_df) ts_example_state (by decide)).mpr
    ⟨ts_example_df, rfl, by decide, by decide, by norm_num [ts_example_df, diffsQ]⟩

/-! ### Formula validation (`MainWindow._validate_all_formulas`)

The formula engine itself (`formula_engine.validate_syntax`) is not part
of the excerpt, so it is kept abstract as a function
`v : String → Bool × String` returning `(is_valid, error_msg)`.  A
multi-line editor is represented by its list of lines (the result of
`formula_text.split('\n')`); a `QLineEdit` by its single text string. -/

/-- Whitespace as recognised by Python `str.strip`. -/
def is_ws (c : Char) : Bool :=
  decide (c = ' ') || decide (c = '\t') || decide (c = '\n') || decide (c = '\r')

/-- Python `line.strip()`. -/
def strip (s : String) : String :=
  String.mk (((s.toList.dropWhile is_ws).reverse.dropWhile is_ws).reverse)

/-- Python `s.startswith('#')`. -/
def starts_with_hash (s : String) : Bool :=
  match s.toList with
  | c :: _ => decide (c = '#')
  | [] => false

/-- The per-line guard `line.strip() and not line.strip().startswith('#')`. -/
def line_is_checked (l : String) : Bool :=
  (strip l != "") && !(starts_with_hash (strip l))

/-- A formula editor of the main window: either a single-line `QLineEdit`
or a multi-line text editor (kept as its list of lines). -/
inductive FormulaEditor where
  | lineEdit (text : String)
  | textEdit (lines : List String)

/-- The lines of an editor's text. -/
def FormulaEditor.allLines : FormulaEditor → List String
  | .lineEdit t => [t]
  | .textEdit ls => ls

/-- The strings the code actually passes to `validate_syntax`: the whole
text for a `QLineEdit`, the non-empty non-comment lines otherwise. -/
def checkedLines : FormulaEditor → List String
  | .lineEdit t => [t]
  | .textEdit ls => ls.filter line_is_checked

/-- Modelled from the spec claim wording: the non-empty, non-comment
lines of the editor's text, for every editor kind alike. -/
def specCheckedLines (e : FormulaEditor) : List String :=
  e.allLines.filter line_is_checked

/-- A single-quote character, as a string. -/
def squote : String := String.singleton (Char.ofNat 39)

/-- The message `f"Line '{line[:30]}...': {error_msg}"`. -/
def renderLineError (line msg : String) : String :=
  "Line " ++ squote ++ line.take 30 ++ "..." ++ squote ++ ": " ++ msg

/-- One step of the validation loop over the lines of a multi-line
editor: skip blank/comment lines, keep the accumulator on success and
replace it by `(False, [message])` on failure. -/
def vstep (v : String → Bool × String) (acc : Bool × List String) (line : String) :
    Bool × List String :=
  if line_is_checked line then
    if (v line).1 then acc else (false, [renderLineError line (v line).2])
  else acc

/-- Python `MainWindow._validate_all_formulas`, restricted to one editor: the
resulting `(styleSheet, toolTip)` pair of that editor. -/
def validate_editor (v : String → Bool × String) : FormulaEditor → String × String
  | .lineEdit t =>
    let r := if (v t).1 then (true, ([] : List String)) else (false, [(v t).2])
    ((if r.1 then "" else "background-color: #ffe0e0;"), String.intercalate "\n" r.2)
  | .textEdit ls =>
    let r := ls.foldl (vstep v) (true, [])
    ((if r.1 then "" else "background-color: #ffe0e0;"), String.intercalate "\n" r.2)

/-- How an error message for a failing checked string is rendered in the
tooltip, per editor kind. -/
def renderedError : FormulaEditor → String → String → String
  | .lineEdit _, _, msg => msg
  | .textEdit _, line, msg => renderLineError line msg

lemma vfold_of_all_valid (v : String → Bool × String) (lines : List String)
    (acc : Bool × List String)
    (h : ∀ l ∈ lines, line_is_checked l = true → (v l).1 = true) :
    lines.foldl (vstep v) acc = acc := by
  induction lines generalizing acc with
  | nil => rfl
  | cons a t ih =>
    have hstep : vstep v acc a = acc := by
      by_cases hc : line_is_checked a = true
      · simp [vstep, hc, h a (List.mem_cons_self a t) hc]
      · simp [vstep, hc]
    rw [List.foldl_cons, hstep]
    exact ih _ (fun l hl hcl => h l (List.mem_cons_of_mem a hl) hcl)

lemma vfold_cases (v : String → Bool × String) (lines : List String)
    (acc : Bool × List String) :
    lines.foldl (vstep v) acc = acc ∨
    ((lines.foldl (vstep v) acc).1 = false ∧
      ∃ l ∈ lines, line_is_checked l = true ∧ (v l).1 = false ∧
        (lines.foldl (vstep v) acc).2 = [renderLineError l (v l).2]) := by
  induction lines generalizing acc with
  | nil => exact Or.inl rfl
  | cons a t ih =>
    rw [List.foldl_cons]
    rcases ih (vstep v acc a) with h | ⟨h1, l, hl, hcl, hvl, h2⟩
    · rw [h]
      by_cases hc : line_is_checked a = true
      · by_cases hv : (v a).1 = true
        · exact Or.inl (by simp [vstep, hc, hv])
        · refine Or.inr ?_
          have hstep : vstep v acc a = (false, [renderLineError a (v a).2]) := by
            simp [vstep, hc, hv]
          rw [hstep]
          exact ⟨rfl, a, List.mem_cons_self a t, hc, Bool.eq_false_iff.mpr hv, rfl⟩
      · exact Or.inl (by simp [vstep, hc])
    · exact Or.inr ⟨h1, l, List.mem_cons_of_mem a hl, hcl, hvl, h2⟩

lemma vfold_invalid (v : String → Bool × String) (lines : List String)
    (acc : Bool × List String)
    (h : ∃ l ∈ lines, line_is_checked l = true ∧ (v l).1 = false) :
    (lines.foldl (vstep v) acc).1 = false ∧
      ∃ l ∈ lines, line_is_checked l = true ∧ (v l).1 = false ∧
        (lines.foldl (vstep v) acc).2 = [renderLineError l (v l).2] := by
  induction lines generalizing acc with
  | nil =>
    obtain ⟨l, hl, _⟩ := h
    exact absurd hl (List.not_mem_nil l)
  | cons a t ih =>
    rw [List.foldl_cons]
    by_cases hrest : ∃ l ∈ t, line_is_checked l = true ∧ (v l).1 = false
    · obtain ⟨h1, l, hl, hcl, hvl, h2⟩ := ih (vstep v acc a) hrest
      exact ⟨h1, l, List.mem_cons_of_mem a hl, hcl, hvl, h2⟩
    · obtain ⟨l, hl, hcl, hvl⟩ := h
      have hla : l = a := by
        rcases List.mem_cons.mp hl with h' | h'
        · exact h'
        · exact absurd ⟨l, h', hcl, hvl⟩ hrest
      subst hla
      have hstep : vstep v acc l = (false, [renderLineError l (v l).2]) := by
        simp [vstep, hcl, hvl]
      rw [hstep]
      rcases vfold_cases v t (false, [renderLineError l (v l).2]) with h' | ⟨h1, l', hl', hcl', hvl', h2⟩
      · rw [h']
        exact ⟨rfl, l, List.mem_cons_self l t, hcl, hvl, rfl⟩
      · exact ⟨h1, l', List.mem_cons_of_mem l hl', hcl', hvl', h2⟩

lemma vfold_congr (v v' : String → Bool × String) (lines : List String)
    (acc : Bool × List String)
    (h : ∀ l ∈ lines, line_is_checked l = true → v l = v' l) :
    lines.foldl (vstep v) acc = lines.foldl (vstep v') acc := by
  induction lines generalizing acc with
  | nil => rfl
  | cons a t ih =>
    rw [List.foldl_cons, List.foldl_cons]
    have hstep : vstep v acc a = vstep v' acc a := by
      by_cases hc : line_is_checked a = true
      · simp [vstep, hc, h a (List.mem_cons_self a t) hc]
      · simp [vstep, hc]
    rw [hstep]
    exact ih _ (fun l hl hcl => h l (List.mem_cons_of_mem a hl) hcl)

/-- C3 counterexample: for a single-line (`QLineEdit`) editor with empty
text, the code passes the whole text `""` to `validate_syntax`, while
the claim's rule ("each non-empty, non-comment line") would check
nothing at all. -/
theorem checked_lines_counterexample :
    checkedLines (FormulaEditor.lineEdit "") ≠ specCheckedLines (FormulaEditor.lineEdit "") := by
  decide

/-- C3 (amended): the outcome of validating an editor depends only on
`validate_syntax`'s verdicts on the editor's checked strings (all
non-empty non-comment lines for a multi-line editor, the whole text for
a `QLineEdit`); if all checks pass the stylesheet is cleared and the
tooltip emptied, and if some check fails the background is set to
`#ffe0e0` and the tooltip carries the rendered error message of one of
the failing checks. -/
theorem validate_editor_spec :
    (∀ (v v' : String → Bool × String) (e : FormulaEditor),
      (∀ l ∈ checkedLines e, v l = v' l) → validate_editor v e = validate_editor v' e)
    ∧ (∀ (v : String → Bool × String) (e : FormulaEditor),
      (∀ l ∈ checkedLines e, (v l).1 = true) → validate_editor v e = ("", ""))
    ∧ (∀ (v : String → Bool × String) (e : FormulaEditor),
      (∃ l ∈ checkedLines e, (v l).1 = false) →
      (validate_editor v e).1 = "background-color: #ffe0e0;" ∧
        ∃ l ∈ checkedLines e, (v l).1 = false ∧
          (validate_editor v e).2 = renderedError e l (v l).2) := by
  refine ⟨?_, ?_, ?_⟩
  · intro v v' e h
    cases e with
    | lineEdit t =>
      have ht : v t = v' t := h t (List.mem_cons_self t [])
      simp only [validate_editor, ht]
    | textEdit ls =>
      have : ls.foldl (vstep v) (true, []) = ls.foldl (vstep v') (true, []) := by
        refine vfold_congr v v' ls (true, []) ?_
        intro l hl hcl
        exact h l (List.mem_filter.mpr ⟨hl, hcl⟩)
      simp only [validate_editor, this]
  · intro v e h
    cases e with
    | lineEdit t =>
      have ht : (v t).1 = true := h t (List.mem_cons_self t [])
      simp [validate_editor, ht]
      rfl
    | textEdit ls =>
      have : ls.foldl (vstep v) (true, []) = (true, []) := by
        refine vfold_of_all_valid v ls (true, []) ?_
        intro l hl hcl
        exact h l (List.mem_filter.mpr ⟨hl, hcl⟩)
      simp [validate_editor, this]
      rfl
  · intro v e h
    cases e with
    | lineEdit t =>
      obtain ⟨l, hl, hvl⟩ := h
      have hlt : l = t := by
        rcases List.mem_cons.mp hl with h' | h'
        · exact h'
        · exact absurd h' (List.not_mem_nil l)
      subst hlt
      constructor
      · simp [validate_editor, hvl]
      · refine ⟨l, List.mem_cons_self l [], hvl, ?_⟩
        simp [validate_editor, hvl, renderedError]
        rfl
    | textEdit ls =>
      obtain ⟨l, hl, hvl⟩ := h
      have hmem := List.mem_filter.mp hl
      have hres := vfold_invalid v ls (true, [])
        ⟨l, hmem.1, hmem.2, hvl⟩
      obtain ⟨h1, l', hl', hcl', hvl', h2⟩ := hres
      constructor
      · simp [validate_editor, h1]
      · refine ⟨l', List.mem_filter.mpr ⟨hl', hcl'⟩, hvl', ?_⟩
        simp [validate_editor, h2, renderedError]
        rfl

/-- Witness for C3 (amended) at a concrete validator and editor. -/
theorem validate_editor_spec_witness :
    validate_editor (fun s => (true, s)) (FormulaEditor.textEdit ["x", "# c"]) = ("", "") :=
  validate_editor_spec.2.1 (fun s => (true, s)) (FormulaEditor.textEdit ["x", "# c"])
    (fun _ _ => rfl)

/-! ### Profile line extraction (`MainWindow._on_profile_line_defined`)

The plot widget's `interpolated_results` dict is represented as an
association list from string keys to possibly-`None` values; a stored
value is opaque (`Option Unit`: `some ()` for a non-None array, `none`
for a stored `None`). -/

/-- The four layer keys iterated by `_on_profile_line_defined`. -/
inductive LayerKey where
  | heatmap | contour | vector_u | vector_v
deriving DecidableEq

/-- The string name of a layer key. -/
def LayerKey.name : LayerKey → String
  | .heatmap => "heatmap"
  | .contour => "contour"
  | .vector_u => "vector_u"
  | .vector_v => "vector_v"

/-- The iteration order `['heatmap', 'contour', 'vector_u', 'vector_v']`. -/
def allLayerKeys : List LayerKey :=
  [.heatmap, .contour, .vector_u, .vector_v]

/-- One layer section of the current configuration: the `enabled` flag
(absent keys are falsy) and the optional `formula` entry. -/
structure LayerCfg where
  enabled : Bool
  formula : Option String

/-- The `vector` section, with `u_formula` and `v_formula` entries. -/
structure VectorCfg where
  enabled : Bool
  u_formula : Option String
  v_formula : Option String

/-- The parts of `config_handler.get_current_config()` read by
`_on_profile_line_defined`. -/
structure VizConfig where
  heatmap : LayerCfg
  contour : LayerCfg
  vector : VectorCfg

/-- Python `f'{key}_data' in interpolated_results and
interpolated_results[f'{key}_data'] is not None`. -/
def hasLayerData (r : List (String × Option Unit)) (k : LayerKey) : Bool :=
  match r.lookup (k.name ++ "_data") with
  | some (some _) => true
  | _ => false

/-- The `if/elif` chain choosing the formula for a key: the layer's
`formula` entry (defaulting to the key name) when the layer is enabled,
`""` otherwise. -/
def layerFormula (cfg : VizConfig) : LayerKey → String
  | .heatmap => if cfg.heatmap.enabled then cfg.heatmap.formula.getD "heatmap" else ""
  | .contour => if cfg.contour.enabled then cfg.contour.formula.getD "contour" else ""
  | .vector_u => if cfg.vector.enabled then cfg.vector.u_formula.getD "vector_u" else ""
  | .vector_v => if cfg.vector.enabled then cfg.vector.v_formula.getD "vector_v" else ""

/-- The entry `_on_profile_line_defined` would insert for a key, if any. -/
def layerEntry (r : List (String × Option Unit)) (cfg : VizConfig) (k : LayerKey) :
    Option String :=
  if hasLayerData r k then
    let formula := layerFormula cfg k
    if formula ≠ "" then some formula else none
  else none

/-- The `available_data` dict built by the loop over the four keys. -/
def availableData (r : List (String × Option Unit)) (cfg : VizConfig) :
    List (LayerKey × String) :=
  allLayerKeys.filterMap fun k => (layerEntry r cfg k).map fun s => (k, s)

/-- Outcome of `MainWindow._on_profile_line_defined`: whether the
"no data" warning is shown, and the `available_data` map handed to the
`ProfilePlotDialog` when one is opened. -/
structure ProfileOutcome where
  warning : Bool
  dialog : Option (List (LayerKey × String))

/-- Python `MainWindow._on_profile_line_defined` (the picked start/end points
are passed through to the dialog unchanged and are omitted). -/
def on_profile_line_defined (r : List (String × Option Unit)) (cfg : VizConfig) :
    ProfileOutcome :=
  if r.isEmpty then { warning := true, dialog := none }
  else { warning := false, dialog := some (availableData r cfg) }

/-- Spec-side: whether a layer is enabled in the configuration. -/
def layerEnabled (cfg : VizConfig) : LayerKey → Bool
  | .heatmap => cfg.heatmap.enabled
  | .contour => cfg.contour.enabled
  | .vector_u => cfg.vector.enabled
  | .vector_v => cfg.vector.enabled

/-- Spec-side: the layer's formula (`.get('formula', key)` semantics). -/
def layerFormulaOf (cfg : VizConfig) : LayerKey → String
  | .heatmap => cfg.heatmap.formula.getD "heatmap"
  | .contour => cfg.contour.formula.getD "contour"
  | .vector_u => cfg.vector.u_formula.getD "vector_u"
  | .vector_v => cfg.vector.v_formula.getD "vector_v"

lemma lookup_filterMap_isSome (g : LayerKey → Option String) (keys : List LayerKey)
    (k : LayerKey) :
    (((keys.filterMap fun a => (g a).map fun s => (a, s)).lookup k).isSome) =
      (keys.contains k && (g k).isSome) := by
  induction keys with
  | nil => simp
  | cons a t ih =>
    cases hga : g a with
    | none =>
      simp only [List.filterMap_cons, hga, Option.map_none']
      rw [ih]
      by_cases hk : k = a
      · subst hk
        simp [hga]
      · simp [List.contains_cons, hk, Ne.symm hk]
    | some s =>
      simp only [List.filterMap_cons, hga, Option.map_some']
      by_cases hk : k = a
      · subst hk
        simp [List.lookup, hga]
      · have : (k == a) = false := by simp [hk]
        simp [List.lookup, this, ih, List.contains_cons, hk, Ne.symm hk]

lemma layerEntry_isSome (r : List (String × Option Unit)) (cfg : VizConfig) (k : LayerKey) :
    (layerEntry r cfg k).isSome = true ↔
      (hasLayerData r k = true ∧ layerEnabled cfg k = true ∧ layerFormulaOf cfg k ≠ "") := by
  have hlf : layerFormula cfg k = if layerEnabled cfg k then layerFormulaOf cfg k else "" := by
    cases k <;> rfl
  by_cases hd : hasLayerData r k = true
  · by_cases he : layerEnabled cfg k = true
    · by_cases hf : layerFormulaOf cfg k = ""
      · simp [layerEntry, hlf, hd, he, hf]
      · simp [layerEntry, hlf, hd, he, hf]
    · simp [layerEntry, hlf, hd, he]
  · simp [layerEntry, hd]

/-- C4: for every user-defined profile line, when there are no
interpolated results a warning is shown and no dialog is opened;
otherwise a dialog is opened whose available-data map has an entry for
each of heatmap/contour/vector_u/vector_v exactly when that layer's
interpolated data is present (and non-None) and the layer is enabled in
the current configuration with a non-empty (defaulted) formula. -/
theorem on_profile_line_defined_spec (r : List (String × Option Unit)) (cfg : VizConfig) :
    (r = [] → (on_profile_line_defined r cfg).warning = true ∧
      (on_profile_line_defined r cfg).dialog = none)
    ∧ (r ≠ [] → (on_profile_line_defined r cfg).warning = false ∧
      ∃ ad, (on_profile_line_defined r cfg).dialog = some ad ∧
        ∀ k : LayerKey, ((ad.lookup k).isSome = true ↔
          (hasLayerData r k = true ∧ layerEnabled cfg k = true ∧
            layerFormulaOf cfg k ≠ ""))) := by
  constructor
  · intro h
    subst h
    exact ⟨rfl, rfl⟩
  · intro h
    have hE : r.isEmpty = false := by
      cases r with | nil => exact absurd rfl h | cons a t => rfl
    refine ⟨by simp [on_profile_line_defined, hE], availableData r cfg,
      by simp [on_profile_line_defined, hE], ?_⟩
    intro k
    have hmem : allLayerKeys.contains k = true := by cases k <;> rfl
    rw [availableData, lookup_filterMap_isSome (layerEntry r cfg) allLayerKeys k,
      hmem, Bool.true_and]
    exact layerEntry_isSome r cfg k

/-- Witness for C4 at a concrete result dict and configuration. -/
theorem on_profile_line_defined_spec_witness :
    (on_profile_line_defined [("heatmap_data", some ())]
      ⟨⟨true, some "T"⟩, ⟨false, none⟩, ⟨false, none, none⟩⟩).warning = false :=
  ((on_profile_line_defined_spec [("heatmap_data", some ())]
      ⟨⟨true, some "T"⟩, ⟨false, none⟩, ⟨false, none, none⟩⟩).2
    (by simp)).1

/-! ### Main window frame loading, cache and database info
(`MainWindow._load_frame`, `_update_frame_info`, `_apply_cache_settings`,
`_update_db_info`)

The data manager is outside the excerpt; it is modelled by the record
below.  Frame data is an opaque type parameter `α`.  Labels hold the
data they display rather than the rendered f-strings. -/

/-- One row of `get_frame_info`: whether a `timestamp` entry exists. -/
structure FrameInfo where
  timestamp : Option ℚ

/-- The dict returned by `get_database_info`; every key may be absent.
The field `var_names` models the dict's `variables` entry. -/
structure DatabaseInfo where
  frame_count : Option ℕ
  var_names : Option (List String)
  db_size_mb : Option ℚ
  zarr_size_mb : Option ℚ

/-- Modelled from the spec: the data manager (a metadata store plus a
chunked array store with an LRU frame cache) is not part of the excerpt;
only the interface used by the main window is represented.
`get_frame_data` may return `None` (`none`) for a frame. -/
structure DM (α : Type) where
  frame_count : ℕ
  get_frame_data : ℤ → Option α
  get_frame_info : ℤ → Option FrameInfo
  cache_size : ℕ
  cache_max_size : ℕ
  time_variable : String
  zarr_path : String
  db_path : String
  database_info : DatabaseInfo

/-- Modelled from the spec: `get_cache_info` reports the current cache
occupancy and its maximum size. -/
def get_cache_info {α : Type} (dm : DM α) : ℕ × ℕ :=
  (dm.cache_size, dm.cache_max_size)

/-- Modelled from the spec: `set_cache_size` sets the frame-cache
capacity. -/
def set_cache_size {α : Type} (dm : DM α) (n : ℕ) : DM α :=
  { dm with cache_max_size := n }

/-- The frame-info label: either `帧: current+1/total` or
`时间平均: 帧 start-end`. -/
inductive FrameInfoLabel where
  | frameNum (current : ℤ) (total : ℕ)
  | timeAvg (s e : ℤ)

/-- The database-info label contents: frame count, number of variables,
Zarr size (MB) and SQLite size (MB). -/
structure DbInfoLabel where
  frames : ℕ
  var_count : ℕ
  zarr_mb : ℚ
  db_mb : ℚ

/-- The parts of the main window state read or written by the embedded
handlers. -/
structure MWState (α : Type) where
  current_frame_index : ℤ
  time_slider_value : ℤ
  plot_widget_data : Option α
  frame_info_label : FrameInfoLabel
  timestamp_label : Option (String × ℚ)
  cache_label : ℕ × ℕ
  db_info_label : DbInfoLabel
  db_info_tooltip : String × String

/-- Python `MainWindow._update_frame_info`: updates the frame-info and
timestamp labels (the timestamp label is left unchanged when
`get_frame_info` has no `timestamp`), then always refreshes the cache
label from `get_cache_info`. -/
def update_frame_info {α : Type} (dm : DM α) (st : MWState α)
    (is_time_avg : Bool) (s e : ℤ) : MWState α :=
  let st1 :=
    if is_time_avg then
      { st with frame_info_label := .timeAvg s e, timestamp_label := none }
    else
      let st2 := { st with
        frame_info_label := .frameNum (st.current_frame_index + 1) dm.frame_count }
      match dm.get_frame_info st.current_frame_index with
      | some info =>
        match info.timestamp with
        | some ts => { st2 with timestamp_label := some (dm.time_variable, ts) }
        | none => st2
      | none => st2
  { st1 with cache_label := get_cache_info dm }

/-- Python `MainWindow._load_frame`: out-of-range indices and `None` frame data
leave the state untouched; otherwise the frame index, the time slider
and the plot widget data are updated and the frame info refreshed. -/
def load_frame {α : Type} (dm : DM α) (st : MWState α) (frame_index : ℤ) : MWState α :=
  if 0 ≤ frame_index ∧ frame_index < (dm.frame_count : ℤ) then
    match dm.get_frame_data frame_index with
    | some d =>
      update_frame_info dm
        { st with current_frame_index := frame_index,
                  time_slider_value := frame_index,
                  plot_widget_data := some d }
        false 0 0
    | none => st
  else st

/-- Python `MainWindow._apply_cache_settings`: sets the data manager's cache
capacity from the spinbox and refreshes the frame info. -/
def apply_cache_settings {α : Type} (dm : DM α) (st : MWState α)
    (spinbox_value : ℕ) : DM α × MWState α :=
  let dm1 := set_cache_size dm spinbox_value
  (dm1, update_frame_info dm1 st false 0 0)

/-- Python `MainWindow._update_db_info`: renders both halves of the hybrid
store into the label and its tooltip. -/
def update_db_info {α : Type} (dm : DM α) (st : MWState α) : MWState α :=
  let info := dm.database_info
  { st with
    db_info_label :=
      { frames := info.frame_count.getD 0,
        var_count := (info.var_names.getD []).length,
        zarr_mb := info.zarr_size_mb.getD 0,
        db_mb := info.db_size_mb.getD 0 },
    db_info_tooltip := (dm.zarr_path, dm.db_path) }

lemma update_frame_info_preserves {α : Type} (dm : DM α) (st : MWState α)
    (b : Bool) (s e : ℤ) :
    (update_frame_info dm st b s e).current_frame_index = st.current_frame_index ∧
    (update_frame_info dm st b s e).time_slider_value = st.time_slider_value ∧
    (update_frame_info dm st b s e).plot_widget_data = st.plot_widget_data := by
  cases b with
  | true => exact ⟨rfl, rfl, rfl⟩
  | false =>
    cases hfi : dm.get_frame_info st.current_frame_index with
    | none => simp [update_frame_info, hfi]
    | some info =>
      cases hts : info.timestamp with
      | none => simp [update_frame_info, hfi, hts]
      | some ts => simp [update_frame_info, hfi, hts]

/-- C5: `_load_frame` leaves the frame index, the time slider and the
plot widget data untouched for out-of-range indices and for `None`
frame data, and updates them only for an in-range index with non-None
data. -/
theorem load_frame_spec :
    (∀ {α : Type} (dm : DM α) (st : MWState α) (idx : ℤ),
      ¬(0 ≤ idx ∧ idx < (dm.frame_count : ℤ)) → load_frame dm st idx = st)
    ∧ (∀ {α : Type} (dm : DM α) (st : MWState α) (idx : ℤ),
      dm.get_frame_data idx = none → load_frame dm st idx = st)
    ∧ (∀ {α : Type} (dm : DM α) (st : MWState α) (idx : ℤ) (d : α),
      (0 ≤ idx ∧ idx < (dm.frame_count : ℤ)) → dm.get_frame_data idx = some d →
      (load_frame dm st idx).current_frame_index = idx ∧
      (load_frame dm st idx).time_slider_value = idx ∧
      (load_frame dm st idx).plot_widget_data = some d) := by
  refine ⟨?_, ?_, ?_⟩
  · intro α dm st idx h
    simp only [load_frame, if_neg h]
  · intro α dm st idx h
    by_cases hr : 0 ≤ idx ∧ idx < (dm.frame_count : ℤ)
    · simp only [load_frame, if_pos hr, h]
    · simp only [load_frame, if_neg hr]
  · intro α dm st idx d hr hd
    simp only [load_frame, if_pos hr, hd]
    exact update_frame_info_preserves dm _ false 0 0

/-- Concrete data manager and window state used by the witnesses. -/
def mw_example_dm : DM Unit :=
  { frame_count := 0, get_frame_data := fun _ => none, get_frame_info := fun _ => none,
    cache_size := 0, cache_max_size := 10, time_variable := "t",
    zarr_path := "data.zarr", db_path := "meta.db",
    database_info := { frame_count := none, var_names := some ["x", "y"],
                       db_size_mb := some 1, zarr_size_mb := none } }

def mw_example_state : MWState Unit :=
  { current_frame_index := 0, time_slider_value := 0, plot_widget_data := none,
    frame_info_label := .frameNum 1 0, timestamp_label := none, cache_label := (0, 0),
    db_info_label := ⟨0, 0, 0, 0⟩, db_info_tooltip := ("", "") }

/-- Witness for C5: loading frame 5 of an empty store changes nothing. -/
theorem load_frame_spec_witness :
    load_frame mw_example_dm mw_example_state 5 = mw_example_state :=
  load_frame_spec.1 mw_example_dm mw_example_state 5 (by decide)

/-- C9: applying the cache settings sets the data manager's frame-cache
capacity to the spinbox value, and every frame-info update displays the
occupancy/maximum pair reported by `get_cache_info` in the cache label. -/
theorem apply_cache_settings_spec {α : Type} (dm : DM α) (st : MWState α) (v : ℕ) :
    (apply_cache_settings dm st v).1.cache_max_size = v
    ∧ (apply_cache_settings dm st v).2.cache_label =
        get_cache_info (apply_cache_settings dm st v).1
    ∧ ∀ (dm1 : DM α) (st1 : MWState α) (b : Bool) (s e : ℤ),
        (update_frame_info dm1 st1 b s e).cache_label = get_cache_info dm1 :=
  ⟨rfl, rfl, fun _ _ _ _ _ => rfl⟩

/-- C10: the database-info label shows the frame count, number of
variables, Zarr store size and SQLite store size from
`get_database_info` (defaulting to 0 / empty for absent keys), and the
tooltip names the data manager's `zarr_path` and `db_path`. -/
theorem update_db_info_spec {α : Type} (dm : DM α) (st : MWState α) :
    ((dm.database_info.frame_count = none →
        (update_db_info dm st).db_info_label.frames = 0)
      ∧ ∀ n, dm.database_info.frame_count = some n →
        (update_db_info dm st).db_info_label.frames = n)
    ∧ ((dm.database_info.var_names = none →
        (update_db_info dm st).db_info_label.var_count = 0)
      ∧ ∀ vs, dm.database_info.var_names = some vs →
        (update_db_info dm st).db_info_label.var_count = vs.length)
    ∧ ((dm.database_info.zarr_size_mb = none →
        (update_db_info dm st).db_info_label.zarr_mb = 0)
      ∧ ∀ q, dm.database_info.zarr_size_mb = some q →
        (update_db_info dm st).db_info_label.zarr_mb = q)
    ∧ ((dm.database_info.db_size_mb = none →
        (update_db_info dm st).db_info_label.db_mb = 0)
      ∧ ∀ q, dm.database_info.db_size_mb = some q →
        (update_db_info dm st).db_info_label.db_mb = q)
    ∧ (update_db_info dm st).db_info_tooltip = (dm.zarr_path, dm.db_path) := by
  refine ⟨⟨?_, ?_⟩, ⟨?_, ?_⟩, ⟨?_, ?_⟩, ⟨?_, ?_⟩, rfl⟩
  · intro h; simp [update_db_info, h]
  · intro n h; simp [update_db_info, h]
  · intro h; simp [update_db_info, h]
  · intro vs h; simp [update_db_info, h]
  · intro h; simp [update_db_info, h]
  · intro q h; simp [update_db_info, h]
  · intro h; simp [update_db_info, h]
  · intro q h; simp [update_db_info, h]

/-- Witness for C10: an absent frame count renders as 0 and a present
variables list as its length. -/
theorem update_db_info_spec_witness :
    (update_db_info mw_example_dm mw_example_state).db_info_label.frames = 0 ∧
    (update_db_info mw_example_dm mw_example_state).db_info_label.var_count = 2 :=
  ⟨(update_db_info_spec mw_example_dm mw_example_state).1.1 rfl,
   (update_db_info_spec mw_example_dm mw_example_state).2.1.2 ["x", "y"] rfl⟩

/-! ### Import pipeline wiring and project initialisation
(`MainWindow._start_database_import`, `_on_import_finished`, `_on_error`,
`_initialize_project`)

These handlers are sequences of Qt calls; they are embedded as traces of
the externally visible actions, in program order. -/

/-- The actions performed by the import-related handlers. -/
inductive ImportEvent where
  | createDialog
  | createWorker
  | connectProgress
  | connectLog
  | connectFinished
  | connectError
  | startWorker
  | execDialog
  | acceptDialog
  | infoBox
  | loadProjectData
  | statusMessage (msg : String)
  | criticalBox (msg : String)
deriving DecidableEq

/-- Python `MainWindow._start_database_import`, as its trace of actions. -/
def start_database_import_trace : List ImportEvent :=
  [.createDialog, .createWorker, .connectProgress, .connectLog,
   .connectFinished, .connectError, .startWorker, .execDialog]

/-- Python `MainWindow._on_import_finished`: accept the dialog when one exists,
then show the info box and load the project data. -/
def on_import_finished_trace (dialog_exists : Bool) : List ImportEvent :=
  (if dialog_exists then [ImportEvent.acceptDialog] else []) ++
    [.infoBox, .loadProjectData]

/-- Python `MainWindow._on_error`: accept (close) the import dialog when it is
visible, then show `f"错误: {message}"` in the status bar and the message
in a critical box. -/
def on_error_trace (dialog_visible : Bool) (msg : String) : List ImportEvent :=
  (if dialog_visible then [ImportEvent.acceptDialog] else []) ++
    [.statusMessage ("错误: " ++ msg), .criticalBox msg]

/-- C7: all four worker signals are connected before the worker is
started; on the finished signal the dialog is accepted and the project
data loaded; and on an error while the dialog is visible, the dialog is
closed first and the status-bar message and critical box follow. -/
theorem import_wiring_spec :
    (List.indexOf ImportEvent.connectProgress start_database_import_trace <
        List.indexOf ImportEvent.startWorker start_database_import_trace
      ∧ List.indexOf ImportEvent.connectLog start_database_import_trace <
        List.indexOf ImportEvent.startWorker start_database_import_trace
      ∧ List.indexOf ImportEvent.connectFinished start_database_import_trace <
        List.indexOf ImportEvent.startWorker start_database_import_trace
      ∧ List.indexOf ImportEvent.connectError start_database_import_trace <
        List.indexOf ImportEvent.startWorker start_database_import_trace)
    ∧ on_import_finished_trace true =
        [.acceptDialog, .infoBox, .loadProjectData]
    ∧ ∀ msg, on_error_trace true msg =
        [.acceptDialog, .statusMessage ("错误: " ++ msg), .criticalBox msg] := by
  refine ⟨⟨?_, ?_, ?_, ?_⟩, rfl, fun msg => rfl⟩ <;> decide

/-- The actions performed by `_initialize_project`. -/
inductive InitAction where
  | loadData
  | askQuestion
  | startImport
  | statusCancelled
deriving DecidableEq

/-- Python `MainWindow._initialize_project`, as a trace of its actions, given
whether `setup_project_directory` succeeded, whether the database is
ready, and the user's answer to the question dialog. -/
def init_project (setup_ok db_ready reply_yes : Bool) : List InitAction :=
  if !setup_ok then []
  else if db_ready then [.loadData]
  else if reply_yes then [.askQuestion, .startImport]
  else [.askQuestion, .statusCancelled]

/-- C8: with a ready database the existing store is loaded directly;
otherwise the user is asked, import starts exactly on a Yes answer, and
a No answer leaves only the question and a status-bar message (the
project is not loaded). -/
theorem init_project_spec :
    (∀ r, init_project true true r = [InitAction.loadData])
    ∧ init_project true false true = [.askQuestion, .startImport]
    ∧ init_project true false false = [.askQuestion, .statusCancelled]
    ∧ (∀ db_ready reply_yes,
        InitAction.startImport ∈ init_project true db_ready reply_yes →
        db_ready = false ∧ reply_yes = true)
    ∧ (∀ reply_yes,
        InitAction.loadData ∈ init_project true false reply_yes → False) := by
  refine ⟨fun r => rfl, rfl, rfl, fun db_ready reply_yes => ?_, fun reply_yes => ?_⟩
  · cases db_ready <;> cases reply_yes <;> decide
  · cases reply_yes <;> decide

/-- Witness for C8: the Yes path starts the import. -/
theorem init_project_spec_witness : (false = false ∧ true = true) :=
  init_project_spec.2.2.2.1 false true (by decide)
